import Mathlib

/-!
Shallow embedding of the tenant-configuration / credential subsystem
(`src/internal/database/tenant.ts`) and of the event-dispatch subsystem
(`src/internal/queue/event.ts`) of the storage control plane, together with
proofs of the behavioural properties claimed for them.

External collaborators (symmetric encryption, JWT verification, the
relational store and the durable queue client) are parameters of the
embedded operations, exactly as they are external collaborators of the
TypeScript code.
-/

set_option autoImplicit false

namespace StorageCore

/-- Equality of `Except` results is decidable when it is on both components;
used to evaluate concrete dispatch outcomes in witnesses. -/
instance instDecidableEqExcept {ε α : Type} [DecidableEq ε] [DecidableEq α] :
    DecidableEq (Except ε α) := fun x y =>
  match x, y with
  | .ok a, .ok b =>
    if h : a = b then .isTrue (by rw [h]) else .isFalse (by simp [h])
  | .error a, .error b =>
    if h : a = b then .isTrue (by rw [h]) else .isFalse (by simp [h])
  | .ok _, .error _ => .isFalse (by simp)
  | .error _, .ok _ => .isFalse (by simp)

/-- Error taxonomy of the embedded subsystems (the members of `ERRORS`
reachable from the embedded code, plus a generic JWT-verification failure
used by the abstract `verifyJWT` collaborator). -/
inductive StorageError where
  | InvalidTenantId
  | MissingTenantConfig (tenantId : String)
  | MissingS3Credentials
  | MaximumCredentialsLimit
  | JWTVerificationError
  deriving Repr, DecidableEq

/-- Feature flags of a tenant, mirroring the `Features` interface. -/
structure Features where
  imageTransformationEnabled : Bool
  imageTransformationMaxResolution : Option Nat
  s3ProtocolEnabled : Bool
  purgeCacheEnabled : Bool
  deriving Repr, DecidableEq

/-- Resolved per-tenant settings, mirroring the `TenantConfig` object built by
`getTenantConfig` (secret fields hold the decrypted values). -/
structure TenantConfig where
  anonKey : String
  databaseUrl : String
  databasePoolUrl : Option String
  maxConnections : Option Nat
  fileSizeLimit : Nat
  jwtSecret : String
  jwks : Option String
  serviceKey : String
  serviceKeyPayloadRole : String
  features : Features
  migrationVersion : Option String
  migrationStatus : Option String
  migrationsRun : Bool
  tracingMode : Option String
  disableEvents : Option (List String)
  deriving Repr, DecidableEq

/-- A row of the `tenants` table as returned by the multitenant store
(`service_key`, `jwt_secret`, `anon_key`, `database_url`, `database_pool_url`
are encrypted at rest). -/
structure TenantRow where
  anon_key : String
  database_url : String
  database_pool_url : Option String
  max_connections : Option Nat
  file_size_limit : Nat
  jwt_secret : String
  jwks : Option String
  service_key : String
  feature_purge_cache : Bool
  feature_image_transformation : Bool
  feature_s3_protocol : Bool
  image_transformation_max_resolution : Option Nat
  migrations_version : Option String
  migrations_status : Option String
  tracing_mode : Option String
  disable_events : Option (List String)
  deriving Repr, DecidableEq

/-- The collaborators `decrypt` and `verifyJWT` used by `getTenantConfig`
(`verifyJWT` returns the `role` claim of the verified service key, or fails). -/
structure TenantEnv where
  decrypt : String → String
  verifyJWT : String → String → Except StorageError String

/-- The in-memory `tenantConfigCache` (a JS `Map`), embedded as an association
list where an inserted binding shadows older ones. -/
abbrev TenantCache : Type := List (String × TenantConfig)

/-- Lookup in the tenant config cache (`Map.get` / `Map.has`). -/
def cacheGet (cache : TenantCache) (k : String) : Option TenantConfig :=
  (List.find? (fun e => e.1 = k) cache).map (fun e => e.2)

/-- Insertion into the tenant config cache (`Map.set`); the new binding shadows
any older binding for the same key. -/
def cacheSet (cache : TenantCache) (k : String) (v : TenantConfig) : TenantCache :=
  (k, v) :: cache

/-- Removal from the tenant config cache (`Map.delete`). -/
def cacheDelete (cache : TenantCache) (k : String) : TenantCache :=
  List.filter (fun e => ¬ e.1 = k) cache

/-- The `TenantConfig` object literal built by `getTenantConfig` from a store
row after decrypting secrets and verifying the service key. -/
def buildTenantConfig (env : TenantEnv) (row : TenantRow) (serviceRole : String) :
    TenantConfig where
  anonKey := env.decrypt row.anon_key
  databaseUrl := env.decrypt row.database_url
  databasePoolUrl := row.database_pool_url.map env.decrypt
  maxConnections := row.max_connections
  fileSizeLimit := row.file_size_limit
  jwtSecret := env.decrypt row.jwt_secret
  jwks := row.jwks
  serviceKey := env.decrypt row.service_key
  serviceKeyPayloadRole := serviceRole
  features :=
    { imageTransformationEnabled := row.feature_image_transformation
      imageTransformationMaxResolution := row.image_transformation_max_resolution
      s3ProtocolEnabled := row.feature_s3_protocol
      purgeCacheEnabled := row.feature_purge_cache }
  migrationVersion := row.migrations_version
  migrationStatus := row.migrations_status
  migrationsRun := false
  tracingMode := row.tracing_mode
  disableEvents := row.disable_events

/-- Result of one `getTenantConfig` call: the returned value or thrown error,
the cache state after the call, and how many queries reached the store. -/
structure FetchResult where
  result : Except StorageError TenantConfig
  cache : TenantCache
  storeQueries : Nat
  deriving DecidableEq

/-- The critical section of `getTenantConfig`, i.e. the callback run under
`tenantMutex(tenantId, ...)`: re-check the cache, query the store, fail with
`MissingTenantConfig` on a missing row, decrypt, verify the service key,
build the config and insert it into the cache. -/
def getTenantConfigLocked (env : TenantEnv) (store : String → Option TenantRow)
    (cache : TenantCache) (tenantId : String) : FetchResult :=
  match cacheGet cache tenantId with
  | some cfg => { result := .ok cfg, cache := cache, storeQueries := 0 }
  | none =>
    match store tenantId with
    | none =>
      { result := .error (.MissingTenantConfig tenantId), cache := cache, storeQueries := 1 }
    | some row =>
      match env.verifyJWT (env.decrypt row.service_key) (env.decrypt row.jwt_secret) with
      | .error e => { result := .error e, cache := cache, storeQueries := 1 }
      | .ok serviceRole =>
        let config := buildTenantConfig env row serviceRole
        { result := .ok config
          cache := cacheSet cache tenantId config
          storeQueries := 1 }

/-- Embedding of `getTenantConfig`: reject an empty tenant id, serve a cache
hit without locking, otherwise run the critical section under the per-tenant
keyed mutex. -/
def getTenantConfig (env : TenantEnv) (store : String → Option TenantRow)
    (cache : TenantCache) (tenantId : String) : FetchResult :=
  if tenantId = "" then
    { result := .error .InvalidTenantId, cache := cache, storeQueries := 0 }
  else
    match cacheGet cache tenantId with
    | some cfg => { result := .ok cfg, cache := cache, storeQueries := 0 }
    | none => getTenantConfigLocked env store cache tenantId

/-- Embedding of `deleteTenantConfig` (`tenantConfigCache.delete`). -/
def deleteTenantConfig (cache : TenantCache) (tenantId : String) : TenantCache :=
  cacheDelete cache tenantId

/-- N callers racing on first access of tenant `t`: each has already observed a
cache miss in the unlocked pre-check, then the keyed mutex serializes their
critical sections, which run in arrival order against the evolving cache.
Returns each caller's outcome, the final cache and the total number of store
queries issued. -/
def raceFirstAccess (env : TenantEnv) (store : String → Option TenantRow) (t : String) :
    Nat → TenantCache → List (Except StorageError TenantConfig) × TenantCache × Nat
  | 0, cache => ([], cache, 0)
  | n + 1, cache =>
    let r := getTenantConfigLocked env store cache t
    let rest := raceFirstAccess env store t n r.cache
    (r.result :: rest.1, rest.2.1, r.storeQueries + rest.2.2)

theorem cacheGet_cacheSet (cache : TenantCache) (k : String) (v : TenantConfig) :
    cacheGet (cacheSet cache k v) k = some v := by
  simp [cacheGet, cacheSet, List.find?]

/-! Event dispatch (`src/internal/queue/event.ts`). -/

/-- The `BasePayload` shape shared by all event payloads: the optional
`$version` stamp, optional `singletonKey`, optional `scheduleAt` timestamp,
optional request id, the tenant reference, and the event-specific fields
(kept opaque as a key/value list). -/
structure EventPayload where
  version : Option String
  singletonKey : Option String
  scheduleAt : Option Nat
  reqId : Option String
  tenantRef : String
  tenantHost : String
  body : List (String × String)
  deriving Repr, DecidableEq

/-- The slow-retry policy a concrete event type may declare
(`SlowRetryQueueOptions`). -/
structure SlowRetryQueueOptions where
  retryLimit : Nat
  retryDelay : Nat
  deriving Repr, DecidableEq

/-- The queue send options relevant to the embedded dispatch logic
(`pg-boss` `SendOptions` / `JobInsert` fields); a `none` field is an absent
key of the JS object, so a later object spread only overrides present keys. -/
structure SendOptions where
  retryBackoff : Option Bool := none
  startAfter : Option Nat := none
  retryLimit : Option Nat := none
  retryDelay : Option Nat := none
  deriving Repr, DecidableEq

/-- Static metadata of a concrete event type: its class name (`eventName`),
version tag, queue name, whether synchronous fallback is allowed, its optional
slow-retry policy, and its `getQueueOptions` override. -/
structure EventType where
  name : String
  version : String
  queueName : String
  allowSync : Bool
  slowRetryQueue : Option SlowRetryQueueOptions
  getQueueOptions : EventPayload → Option SendOptions

/-- The `data` object handed to the durable queue: the instance `send()` (and
the synchronous-fallback and slow-retry paths) build
`{ region, ...payload, $version: constructor.version }`, while `batchSend`
passes the payload itself, without a region key (`region := none`). -/
structure JobData where
  region : Option String
  payload : EventPayload
  deriving Repr, DecidableEq

/-- A job as delivered to a handler (`pg-boss` `Job`): id, queue name, data. -/
structure Job where
  id : String
  name : String
  data : JobData
  deriving Repr, DecidableEq

/-- One attempted `Queue.getInstance().send` call: target queue name, data and
options. -/
structure QueueAttempt where
  name : String
  data : JobData
  options : Option SendOptions
  deriving Repr, DecidableEq

/-- The envelope data `{ region, ...this.payload, $version: constructor.version }`
built by the instance `send()`: the `$version` key is written after the payload
spread, so it always holds the event type's version tag. -/
def envelopeData (region : String) (et : EventType) (p : EventPayload) : JobData :=
  { region := some region, payload := { p with version := some et.version } }

/-- The queue options resolved by the instance `send()`: the event type's
`getQueueOptions`, with `payload.scheduleAt` (when present) copied into
`startAfter`. -/
def resolveSendOptions (et : EventType) (p : EventPayload) : Option SendOptions :=
  match p.scheduleAt with
  | none => et.getQueueOptions p
  | some ts => some { ((et.getQueueOptions p).getD {}) with startAfter := some ts }

/-- Errors the dispatch layer itself can throw: an unset queue name
(`Queue name not set on ...`), or an error propagated from the tenant lookup
inside `shouldSend`. -/
inductive SendError where
  | queueNameUnset
  | tenantError (e : StorageError)
  deriving Repr, DecidableEq

/-- The value an awaited `send()` resolves to: `undefined` (suppression or
skipped dispatch), the queue's job id, or the synchronous handler's result. -/
inductive SendValue (α : Type) where
  | void
  | jobId (id : String)
  | handled (r : α)
  deriving Repr, DecidableEq

/-- Observable outcome of one instance `send()` call: its resolved value or
thrown error, the enqueue attempts made on the durable queue, the jobs handed
to the synchronous handler, and the number of warnings logged. -/
structure SendOutcome (α : Type) where
  result : Except SendError (SendValue α)
  enqueueAttempts : List QueueAttempt
  handledJobs : List Job
  warnings : Nat
  deriving Repr, DecidableEq

/-- Process-wide dispatch configuration read from `getConfig()`:
`pgQueueEnable`, `region`, `isMultitenant`. -/
structure QueueConfig where
  pgQueueEnable : Bool
  region : String
  isMultitenant : Bool
  deriving Repr, DecidableEq

/-- Embedding of the static `shouldSend`: in multi-tenant mode resolve the
payload's tenant and refuse to send when the event type's name occurs in the
tenant's `disableEvents` list. -/
def shouldSend (isMultitenant : Bool)
    (getTenant : String → Except StorageError TenantConfig)
    (et : EventType) (p : EventPayload) : Except StorageError Bool :=
  if isMultitenant then
    match getTenant p.tenantRef with
    | .error e => .error e
    | .ok tenant =>
      let disabledEvents := tenant.disableEvents.getD []
      if et.name ∈ disabledEvents then .ok false else .ok true
  else
    .ok true

/-- Embedding of the instance `send()`. The queue client is the collaborator
`queueSend` and the event type's `handle` is the collaborator `handle`. When
the queue is disabled, an allowed synchronous handler runs on a synthetic
`__sync` job; when an enqueue attempt throws, the same envelope is handed to
the handler synchronously (after a logged warning) instead of propagating the
failure. An unset queue name throws: directly in the disabled path, and in the
enabled path the throw inside the `try` is caught (logging the fallback
warning) and then re-raised by the fallback's own `getQueueName()` call. -/
def sendInstance {α : Type} (cfg : QueueConfig)
    (getTenant : String → Except StorageError TenantConfig)
    (queueSend : String → JobData → Option SendOptions → Except String String)
    (handle : Job → α) (et : EventType) (p : EventPayload) : SendOutcome α :=
  match shouldSend cfg.isMultitenant getTenant et p with
  | .error e =>
    { result := .error (.tenantError e), enqueueAttempts := [], handledJobs := [], warnings := 0 }
  | .ok false =>
    { result := .ok .void, enqueueAttempts := [], handledJobs := [], warnings := 0 }
  | .ok true =>
    if cfg.pgQueueEnable = false then
      if et.allowSync then
        if et.queueName = "" then
          { result := .error .queueNameUnset, enqueueAttempts := [], handledJobs := []
            warnings := 0 }
        else
          { result := .ok (.handled (handle
              { id := "__sync", name := et.queueName, data := envelopeData cfg.region et p }))
            enqueueAttempts := []
            handledJobs :=
              [{ id := "__sync", name := et.queueName, data := envelopeData cfg.region et p }]
            warnings := 0 }
      else
        { result := .ok .void, enqueueAttempts := [], handledJobs := [], warnings := 1 }
    else
      if et.queueName = "" then
        { result := .error .queueNameUnset, enqueueAttempts := [], handledJobs := []
          warnings := 1 }
      else
        match queueSend et.queueName (envelopeData cfg.region et p) (resolveSendOptions et p) with
        | .ok jobId =>
          { result := .ok (.jobId jobId)
            enqueueAttempts :=
              [{ name := et.queueName, data := envelopeData cfg.region et p
                 options := resolveSendOptions et p }]
            handledJobs := []
            warnings := 0 }
        | .error _ =>
          { result := .ok (.handled (handle
              { id := "__sync", name := et.queueName, data := envelopeData cfg.region et p }))
            enqueueAttempts :=
              [{ name := et.queueName, data := envelopeData cfg.region et p
                 options := resolveSendOptions et p }]
            handledJobs :=
              [{ id := "__sync", name := et.queueName, data := envelopeData cfg.region et p }]
            warnings := 1 }

/-- Mutation of the payload done inside `batchSend`'s map: stamp `$version`
with the event type's version tag only when the payload does not already carry
one. -/
def stampVersion (et : EventType) (p : EventPayload) : EventPayload :=
  if p.version = none then { p with version := some et.version } else p

/-- One bulk-insert entry built by `batchSend`: the resolved per-event options
spread at the top level, the queue name, and `data := message.payload` (the
plain payload, no region wrapper). -/
structure BatchJob where
  options : SendOptions
  name : String
  data : JobData
  deriving Repr, DecidableEq

/-- The entry `batchSend` builds for one message: `getQueueOptions` of the
original payload (defaulting to the empty options object), the `$version`
stamp, and `scheduleAt` copied into `startAfter`. -/
def batchEntry (et : EventType) (p : EventPayload) : BatchJob :=
  let sendOptions := (et.getQueueOptions p).getD {}
  let p' := stampVersion et p
  { options :=
      match p'.scheduleAt with
      | some ts => { sendOptions with startAfter := some ts }
      | none => sendOptions
    name := et.queueName
    data := { region := none, payload := p' } }

/-- Observable outcome of `batchSend`: with the queue disabled, either every
message's `send()` runs (sync fallback allowed) or the batch is skipped with a
warning; with the queue enabled, all envelopes go to the queue as one bulk
insert (`nameUnset` when the queue name is not set). -/
inductive BatchOutcome (α : Type) where
  | syncSent (results : List (SendOutcome α))
  | skippedBatch
  | inserted (jobs : List BatchJob)
  | nameUnset
  deriving Repr, DecidableEq

/-- Embedding of the static `batchSend`. -/
def batchSend {α : Type} (cfg : QueueConfig)
    (getTenant : String → Except StorageError TenantConfig)
    (queueSend : String → JobData → Option SendOptions → Except String String)
    (handle : Job → α) (et : EventType) (messages : List EventPayload) : BatchOutcome α :=
  if cfg.pgQueueEnable = false then
    if et.allowSync then
      .syncSent (messages.map (sendInstance cfg getTenant queueSend handle et))
    else
      .skippedBatch
  else
    if et.queueName = "" then .nameUnset
    else .inserted (messages.map (batchEntry et))

/-- The value `sendSlowRetryQueue()` resolves to, or the error it throws: the
early return (`undefined`) when the queue is disabled or no slow-retry policy
is declared, the enqueued job id, an unset queue name, or a propagated queue
failure (this path has no synchronous fallback). -/
inductive SlowRetryResult where
  | void
  | jobId (id : String)
  | queueNameUnset
  | sendFailed (e : String)
  deriving Repr, DecidableEq

/-- Observable outcome of `sendSlowRetryQueue()`. -/
structure SlowRetryOutcome where
  result : SlowRetryResult
  enqueueAttempts : List QueueAttempt
  deriving Repr, DecidableEq

/-- The options object
`{ retryBackoff: true, startAfter: 60 * 60 * 30, ...sendOptions, ...slowRetryQueue }`
of `sendSlowRetryQueue` (the source comment calls the default `startAfter`
"30 mins"): spread semantics make present keys of later objects win. -/
def slowRetryOptions (et : EventType) (p : EventPayload)
    (srq : SlowRetryQueueOptions) : SendOptions :=
  let sendOptions := (et.getQueueOptions p).getD {}
  { retryBackoff := some (sendOptions.retryBackoff.getD true)
    startAfter := some (sendOptions.startAfter.getD (60 * 60 * 30))
    retryLimit := some srq.retryLimit
    retryDelay := some srq.retryDelay }

/-- Embedding of the instance `sendSlowRetryQueue()`: a no-op unless the event
type declares a slow-retry policy and the queue is enabled; otherwise enqueues
the envelope on the `<queueName>-slow` queue with the merged options. -/
def sendSlowRetryQueue (cfg : QueueConfig)
    (queueSend : String → JobData → Option SendOptions → Except String String)
    (et : EventType) (p : EventPayload) : SlowRetryOutcome :=
  match et.slowRetryQueue with
  | none => { result := .void, enqueueAttempts := [] }
  | some srq =>
    if cfg.pgQueueEnable = false then
      { result := .void, enqueueAttempts := [] }
    else
      if et.queueName = "" then
        { result := .queueNameUnset, enqueueAttempts := [] }
      else
        match queueSend (et.queueName ++ "-slow") (envelopeData cfg.region et p)
            (some (slowRetryOptions et p srq)) with
        | .ok jobId =>
          { result := .jobId jobId
            enqueueAttempts :=
              [{ name := et.queueName ++ "-slow", data := envelopeData cfg.region et p
                 options := some (slowRetryOptions et p srq) }] }
        | .error e =>
          { result := .sendFailed e
            enqueueAttempts :=
              [{ name := et.queueName ++ "-slow", data := envelopeData cfg.region et p
                 options := some (slowRetryOptions et p srq) }] }

/-! S3 credentials (`src/internal/database/tenant.ts`). -/

/-- The claims object attached to an S3 credential. The standard members the
code manipulates are explicit fields; any further caller-supplied custom
claims are the opaque `extra` list. A `none` field is an absent key. -/
structure Claims where
  role : Option String
  sub : Option String
  iss : Option String
  issuer : Option String
  exp : Option Int
  iat : Option Int
  extra : List (String × String)
  deriving Repr, DecidableEq

/-- The empty claims object `\x7b\x7d`. -/
def Claims.empty : Claims :=
  { role := none, sub := none, iss := none, issuer := none, exp := none, iat := none
    extra := [] }

/-- A row of the `tenants_s3_credentials` table (`secret_key` encrypted). -/
structure CredRow where
  id : String
  tenant_id : String
  description : String
  access_key : String
  secret_key : String
  claims : Claims
  deriving Repr, DecidableEq

/-- The decrypted credential value held in `tenantS3CredentialsCache`. -/
structure S3Credentials where
  accessKey : String
  secretKey : String
  claims : Claims
  deriving Repr, DecidableEq

/-- The in-memory `tenantS3CredentialsCache` keyed by `tenantId:accessKey`,
embedded as an association list (size/TTL bookkeeping of the LRU cache is not
modelled; only presence and removal of entries are). -/
abbrev S3Cache : Type := List (String × S3Credentials)

/-- Removal from the S3 credentials cache (`LRUCache.delete`). -/
def s3CacheDelete (cache : S3Cache) (k : String) : S3Cache :=
  List.filter (fun e => ¬ e.1 = k) cache

/-- The broadcast channel for tenant-config invalidations. -/
def TENANTS_UPDATE_CHANNEL : String := "tenants_update"

/-- The broadcast channel for S3-credential invalidations. -/
def TENANTS_S3_CREDENTIALS_UPDATE_CHANNEL : String := "tenants_s3_credentials_update"

/-- The subscription handler `listenForTenantUpdate` registers on the
`tenants_update` channel: delete the cache key named by the message. -/
def onTenantsUpdateMessage (cache : TenantCache) (cacheKey : String) : TenantCache :=
  cacheDelete cache cacheKey

/-- The subscription handler `listenForTenantUpdate` registers on the
`tenants_s3_credentials_update` channel: delete the cache key named by the
message. -/
def onS3CredentialsUpdateMessage (cache : S3Cache) (cacheKey : String) : S3Cache :=
  s3CacheDelete cache cacheKey

/-- Embedding of `countS3Credentials`: the store count of credential rows of
the tenant. -/
def countS3Credentials (store : List CredRow) (tenantId : String) : Nat :=
  (store.filter (fun r => r.tenant_id = tenantId)).length

/-- The collaborators of `createS3Credentials`: symmetric encryption and the
configured `dbServiceRole`. -/
structure CredentialEnv where
  encrypt : String → String
  dbServiceRole : String

/-- The value `createS3Credentials` resolves to: the new row id, the access
key id, and the plaintext secret (returned exactly once). -/
structure CreateCredentialSuccess where
  id : String
  access_key : String
  secret_key : String
  deriving Repr, DecidableEq

/-- Outcome of `createS3Credentials`: resolved value or thrown error, and the
store contents after the call. -/
structure CreateCredentialResult where
  result : Except StorageError CreateCredentialSuccess
  store : List CredRow
  deriving DecidableEq

/-- The in-place `delete data.claims.iss / issuer / exp / iat` performed on
caller-supplied claims. -/
def stripRestrictedClaims (c : Claims) : Claims :=
  { c with iss := none, issuer := none, exp := none, iat := none }

/-- Embedding of `createS3Credentials`. The generated random access-key id and
secret and the store-assigned row id are inputs (`accessKeyId`, `accessKey`,
`newRowId`), since they come from `crypto.randomBytes` and the store. After
the count guard, restricted claims are deleted, then the persisted claims are
rebuilt with the caller's role (defaulting to `dbServiceRole`), the
server-assigned issuer `supabase.storage.<tenantId>` and the caller's `sub`;
the secret is encrypted before the row is inserted. -/
def createS3Credentials (env : CredentialEnv) (store : List CredRow)
    (tenantId description : String) (dataClaims : Option Claims)
    (newRowId accessKeyId accessKey : String) : CreateCredentialResult :=
  let existingCount := countS3Credentials store tenantId
  if 50 ≤ existingCount then
    { result := .error .MaximumCredentialsLimit, store := store }
  else
    let stripped := dataClaims.map stripRestrictedClaims
    let claims : Claims :=
      { stripped.getD Claims.empty with
        role := some ((stripped.bind (fun c => c.role)).getD env.dbServiceRole)
        issuer := some ("supabase.storage." ++ tenantId)
        sub := stripped.bind (fun c => c.sub) }
    let row : CredRow :=
      { id := newRowId, tenant_id := tenantId, description := description
        access_key := accessKeyId, secret_key := env.encrypt accessKey, claims := claims }
    { result := .ok { id := newRowId, access_key := accessKeyId, secret_key := accessKey }
      store := store ++ [row] }

/-- Embedding of `deleteS3Credential`: remove the rows of the tenant with the
given credential id from the store, returning the new store contents and the
deleted ids (`returning('id')`). -/
def deleteS3Credential (store : List CredRow) (tenantId credentialId : String) :
    List CredRow × List String :=
  ((store.filter (fun r => ¬ (r.tenant_id = tenantId ∧ r.id = credentialId))),
   (store.filter (fun r => r.tenant_id = tenantId ∧ r.id = credentialId)).map
     (fun r => r.id))

/-- Combined effect of an S3-credential deletion as observed by the store, the
deleting instance's cache, and the invalidation bus. -/
structure DeleteCredentialEffects where
  store : List CredRow
  localCache : S3Cache
  published : List (String × String)
  deriving Repr, DecidableEq

/-- Modelled from the spec: the caller of `deleteS3Credential` (the admin HTTP
route, which is not among the sources) must, per the specification of the
credential store, "additionally invalidate the cache entry and publish
invalidation for other instances". The store deletion itself delegates to the
`deleteS3Credential` embedding; the cache entry is the `tenantId:accessKey`
key and the invalidation message carries that key on the
`tenants_s3_credentials_update` channel. -/
def deleteS3CredentialOperation (store : List CredRow) (localCache : S3Cache)
    (tenantId credentialId accessKey : String) : DeleteCredentialEffects :=
  let r := deleteS3Credential store tenantId credentialId
  let cacheKey := tenantId ++ ":" ++ accessKey
  { store := r.1
    localCache := s3CacheDelete localCache cacheKey
    published := [(TENANTS_S3_CREDENTIALS_UPDATE_CHANNEL, cacheKey)] }

/-! Concrete fixtures used by counterexamples and witnesses. -/

/-- A tenant environment whose decryption is the identity and whose service
key always verifies with role `service_role`. -/
def sampleEnv : TenantEnv :=
  { decrypt := fun s => s, verifyJWT := fun _ _ => .ok "service_role" }

/-- A store row for tenant `t1`, with the `Webhook` event suppressed. -/
def sampleRow : TenantRow :=
  { anon_key := "anon", database_url := "dburl", database_pool_url := none
    max_connections := none, file_size_limit := 100, jwt_secret := "jwtsecret"
    jwks := none, service_key := "svckey", feature_purge_cache := false
    feature_image_transformation := false, feature_s3_protocol := true
    image_transformation_max_resolution := none, migrations_version := none
    migrations_status := none, tracing_mode := none
    disable_events := some ["Webhook"] }

/-- A store holding exactly tenant `t1`. -/
def sampleStore : String → Option TenantRow :=
  fun t => if t = "t1" then some sampleRow else none

/-- A store holding no tenants. -/
def emptyStore : String → Option TenantRow := fun _ => none

/-- The tenant lookup `shouldSend` performs, i.e. `getTenantConfig` restricted
to its returned value. -/
def tenantLookup (env : TenantEnv) (store : String → Option TenantRow)
    (cache : TenantCache) : String → Except StorageError TenantConfig :=
  fun ref => (getTenantConfig env store cache ref).result

/-- A concrete `Webhook`-like event type. -/
def webhookType : EventType :=
  { name := "Webhook", version := "v1", queueName := "webhooks", allowSync := true
    slowRetryQueue := none, getQueueOptions := fun _ => none }

/-- A concrete event type declaring a slow-retry policy. -/
def backupType : EventType :=
  { name := "BackupObjectEvent", version := "v1", queueName := "backup-object"
    allowSync := true, slowRetryQueue := some { retryLimit := 3, retryDelay := 5 }
    getQueueOptions := fun _ => none }

/-- A concrete payload for tenant `t1`, with no caller-supplied version. -/
def samplePayload : EventPayload :=
  { version := none, singletonKey := none, scheduleAt := none, reqId := none
    tenantRef := "t1", tenantHost := "h1", body := [("objectName", "file.txt")] }

/-- `samplePayload` with a caller-supplied `$version`. -/
def versionedPayload : EventPayload := { samplePayload with version := some "v9" }

/-- A queue client whose send always throws. -/
def failingQueueSend : String → JobData → Option SendOptions → Except String String :=
  fun _ _ _ => .error "boom"

/-- A queue client whose send always succeeds with job id `job-1`. -/
def okQueueSend : String → JobData → Option SendOptions → Except String String :=
  fun _ _ _ => .ok "job-1"

/-- A concrete synchronous handler returning a string observation of its job. -/
def sampleHandle : Job → String := fun j => j.id ++ ":" ++ j.name

/-- Dispatch configuration: queue enabled, single-tenant deployment. -/
def cfgQueueOnSingle : QueueConfig :=
  { pgQueueEnable := true, region := "r1", isMultitenant := false }

/-- Dispatch configuration: queue enabled, multi-tenant deployment. -/
def cfgQueueOnMulti : QueueConfig :=
  { pgQueueEnable := true, region := "r1", isMultitenant := true }

/-! Claim theorems. -/

/-- C1: for an event whose suppression check passes, with the durable queue
enabled and a set queue name, if the enqueue attempt throws then `send()` does
not propagate the failure: after logging one warning it invokes the event
type's handler with a job whose id is the synthetic marker `__sync` and whose
data is exactly the envelope that was passed to the failed enqueue, and
`send()` resolves to that handler invocation's result. -/
theorem C1_enqueue_failure_falls_back_synchronously {α : Type} (cfg : QueueConfig)
    (getTenant : String → Except StorageError TenantConfig)
    (queueSend : String → JobData → Option SendOptions → Except String String)
    (handle : Job → α) (et : EventType) (p : EventPayload) (err : String)
    (hs : shouldSend cfg.isMultitenant getTenant et p = .ok true)
    (hq : cfg.pgQueueEnable = true)
    (hn : ¬ et.queueName = "")
    (hfail : queueSend et.queueName (envelopeData cfg.region et p)
      (resolveSendOptions et p) = .error err) :
    sendInstance cfg getTenant queueSend handle et p =
      { result := .ok (.handled (handle
          { id := "__sync", name := et.queueName, data := envelopeData cfg.region et p }))
        enqueueAttempts :=
          [{ name := et.queueName, data := envelopeData cfg.region et p
             options := resolveSendOptions et p }]
        handledJobs :=
          [{ id := "__sync", name := et.queueName, data := envelopeData cfg.region et p }]
        warnings := 1 } := by
  unfold sendInstance
  rw [hs, hq, hfail]
  simp [hn]

/-- C1 witness: concrete instance of the fallback behaviour, the hypotheses
discharged by evaluation. -/
theorem C1_witness :
    (shouldSend cfgQueueOnSingle.isMultitenant (tenantLookup sampleEnv sampleStore [])
        webhookType samplePayload = .ok true) ∧
    cfgQueueOnSingle.pgQueueEnable = true ∧
    ¬ webhookType.queueName = "" ∧
    (failingQueueSend webhookType.queueName
        (envelopeData cfgQueueOnSingle.region webhookType samplePayload)
        (resolveSendOptions webhookType samplePayload) = .error "boom") ∧
    sendInstance cfgQueueOnSingle (tenantLookup sampleEnv sampleStore []) failingQueueSend
        sampleHandle webhookType samplePayload =
      { result := .ok (.handled (sampleHandle
          { id := "__sync", name := webhookType.queueName
            data := envelopeData cfgQueueOnSingle.region webhookType samplePayload }))
        enqueueAttempts :=
          [{ name := webhookType.queueName
             data := envelopeData cfgQueueOnSingle.region webhookType samplePayload
             options := resolveSendOptions webhookType samplePayload }]
        handledJobs :=
          [{ id := "__sync", name := webhookType.queueName
             data := envelopeData cfgQueueOnSingle.region webhookType samplePayload }]
        warnings := 1 } :=
  ⟨rfl, rfl, by decide, rfl,
    C1_enqueue_failure_falls_back_synchronously cfgQueueOnSingle
      (tenantLookup sampleEnv sampleStore []) failingQueueSend sampleHandle webhookType
      samplePayload "boom" rfl rfl (by decide) rfl⟩

/-- C2: in multi-tenant mode, when the event type's name occurs in the payload
tenant's `disableEvents` list, `send()` resolves to `undefined` without
throwing, without any enqueue attempt, without any handler invocation and
without logging a warning. -/
theorem C2_suppressed_send_has_no_side_effect {α : Type} (cfg : QueueConfig)
    (env : TenantEnv) (store : String → Option TenantRow) (cache : TenantCache)
    (queueSend : String → JobData → Option SendOptions → Except String String)
    (handle : Job → α) (et : EventType) (p : EventPayload) (t : TenantConfig)
    (hm : cfg.isMultitenant = true)
    (ht : tenantLookup env store cache p.tenantRef = .ok t)
    (hd : et.name ∈ t.disableEvents.getD []) :
    sendInstance cfg (tenantLookup env store cache) queueSend handle et p =
      { result := .ok .void, enqueueAttempts := [], handledJobs := [], warnings := 0 } := by
  unfold sendInstance shouldSend
  rw [hm, if_pos rfl, ht]
  simp [hd]

/-- C2 witness: tenant `t1` suppresses `Webhook`; sending a webhook for `t1`
is a silent no-op, the hypotheses discharged by evaluation. -/
theorem C2_witness :
    cfgQueueOnMulti.isMultitenant = true ∧
    (tenantLookup sampleEnv sampleStore [] samplePayload.tenantRef =
      .ok (buildTenantConfig sampleEnv sampleRow "service_role")) ∧
    webhookType.name ∈ (buildTenantConfig sampleEnv sampleRow "service_role").disableEvents.getD [] ∧
    sendInstance cfgQueueOnMulti (tenantLookup sampleEnv sampleStore []) okQueueSend
        sampleHandle webhookType samplePayload =
      { result := .ok .void, enqueueAttempts := [], handledJobs := [], warnings := 0 } :=
  ⟨rfl, rfl, by decide,
    C2_suppressed_send_has_no_side_effect cfgQueueOnMulti sampleEnv sampleStore []
      okQueueSend sampleHandle webhookType samplePayload
      (buildTenantConfig sampleEnv sampleRow "service_role") rfl rfl (by decide)⟩

/-- C3 counterexample: the claim fails on the code in two ways. An instance
`send()` with a caller-supplied `$version` of `v9` enqueues an envelope whose
`$version` is the event type's tag `v1` (the caller-supplied value is
overridden, not kept), and `batchSend` hands the queue the bare payload with
no region tag at all. -/
theorem C3_counterexample :
    ((sendInstance cfgQueueOnSingle (tenantLookup sampleEnv sampleStore []) okQueueSend
        sampleHandle webhookType versionedPayload).enqueueAttempts.map
          (fun a => a.data.payload.version) = [some "v1"]) ∧
    (some "v1" : Option String) ≠ some "v9" ∧
    (batchSend cfgQueueOnSingle (tenantLookup sampleEnv sampleStore []) okQueueSend
        sampleHandle webhookType [samplePayload] =
      .inserted [{ options := {}, name := "webhooks"
                   data := { region := none
                             payload := { samplePayload with version := some "v1" } } }]) ∧
    ((none : Option String) ≠ some cfgQueueOnSingle.region) :=
  ⟨rfl, by decide, rfl, by decide⟩

/-- C3 (amended): for every event dispatched to the durable queue, a payload
`scheduleAt` appears as the queue option `startAfter`; the instance `send()`
envelope wraps the payload with the region tag and always stamps `$version`
with the event type's version tag, overriding a caller-supplied one, while
`batchSend` hands the queue the payload itself without a region tag, stamping
`$version` with the type's tag only when the caller did not already supply
one. -/
theorem C3_envelope_shape {α : Type} (cfg : QueueConfig)
    (getTenant : String → Except StorageError TenantConfig)
    (queueSend : String → JobData → Option SendOptions → Except String String)
    (handle : Job → α) (et : EventType) (p : EventPayload) (jobId : String)
    (hq : cfg.pgQueueEnable = true)
    (hn : ¬ et.queueName = "")
    (hs : shouldSend cfg.isMultitenant getTenant et p = .ok true)
    (hsend : queueSend et.queueName (envelopeData cfg.region et p)
      (resolveSendOptions et p) = .ok jobId) :
    ((sendInstance cfg getTenant queueSend handle et p).enqueueAttempts =
      [{ name := et.queueName, data := envelopeData cfg.region et p
         options := resolveSendOptions et p }]) ∧
    (envelopeData cfg.region et p).region = some cfg.region ∧
    (envelopeData cfg.region et p).payload.version = some et.version ∧
    (∀ ts, p.scheduleAt = some ts →
      ∃ o, resolveSendOptions et p = some o ∧ o.startAfter = some ts) ∧
    (batchSend cfg getTenant queueSend handle et [p] = .inserted [batchEntry et p]) ∧
    (batchEntry et p).data.region = none ∧
    (batchEntry et p).data.payload.version =
      (if p.version = none then some et.version else p.version) ∧
    (∀ ts, p.scheduleAt = some ts → (batchEntry et p).options.startAfter = some ts) := by
  refine ⟨?_, rfl, rfl, ?_, ?_, rfl, ?_, ?_⟩
  · unfold sendInstance
    rw [hs, hq, hsend]
    simp [hn]
  · intro ts hts
    unfold resolveSendOptions
    rw [hts]
    exact ⟨_, rfl, rfl⟩
  · unfold batchSend
    rw [hq]
    simp [hn]
  · unfold batchEntry stampVersion
    by_cases h : p.version = none <;> simp [h]
  · intro ts hts
    unfold batchEntry stampVersion
    by_cases h : p.version = none <;> simp [h, hts]

/-- C3 witness: concrete instance with a scheduled payload and no
caller-supplied version, the hypotheses discharged by evaluation. -/
theorem C3_witness :
    cfgQueueOnSingle.pgQueueEnable = true ∧
    ¬ webhookType.queueName = "" ∧
    (shouldSend cfgQueueOnSingle.isMultitenant (tenantLookup sampleEnv sampleStore [])
        webhookType { samplePayload with scheduleAt := some 1700 } = .ok true) ∧
    (okQueueSend webhookType.queueName
        (envelopeData cfgQueueOnSingle.region webhookType
          { samplePayload with scheduleAt := some 1700 })
        (resolveSendOptions webhookType { samplePayload with scheduleAt := some 1700 }) =
      .ok "job-1") ∧
    (((sendInstance cfgQueueOnSingle (tenantLookup sampleEnv sampleStore []) okQueueSend
        sampleHandle webhookType
        { samplePayload with scheduleAt := some 1700 }).enqueueAttempts =
      [{ name := webhookType.queueName
         data := envelopeData cfgQueueOnSingle.region webhookType
           { samplePayload with scheduleAt := some 1700 }
         options := resolveSendOptions webhookType
           { samplePayload with scheduleAt := some 1700 } }]) ∧
    (envelopeData cfgQueueOnSingle.region webhookType
        { samplePayload with scheduleAt := some 1700 }).region = some cfgQueueOnSingle.region ∧
    (envelopeData cfgQueueOnSingle.region webhookType
        { samplePayload with scheduleAt := some 1700 }).payload.version =
      some webhookType.version ∧
    (∀ ts, ({ samplePayload with scheduleAt := some 1700 } : EventPayload).scheduleAt = some ts →
      ∃ o, resolveSendOptions webhookType { samplePayload with scheduleAt := some 1700 } =
        some o ∧ o.startAfter = some ts) ∧
    (batchSend cfgQueueOnSingle (tenantLookup sampleEnv sampleStore []) okQueueSend
        sampleHandle webhookType [{ samplePayload with scheduleAt := some 1700 }] =
      .inserted [batchEntry webhookType { samplePayload with scheduleAt := some 1700 }]) ∧
    (batchEntry webhookType { samplePayload with scheduleAt := some 1700 }).data.region = none ∧
    (batchEntry webhookType { samplePayload with scheduleAt := some 1700 }).data.payload.version =
      (if ({ samplePayload with scheduleAt := some 1700 } : EventPayload).version = none
        then some webhookType.version
        else ({ samplePayload with scheduleAt := some 1700 } : EventPayload).version) ∧
    (∀ ts, ({ samplePayload with scheduleAt := some 1700 } : EventPayload).scheduleAt = some ts →
      (batchEntry webhookType { samplePayload with scheduleAt := some 1700 }).options.startAfter =
        some ts)) :=
  ⟨rfl, by decide, rfl, rfl,
    C3_envelope_shape cfgQueueOnSingle (tenantLookup sampleEnv sampleStore []) okQueueSend
      sampleHandle webhookType { samplePayload with scheduleAt := some 1700 } "job-1"
      rfl (by decide) rfl rfl⟩

/-- C4: evaluation of the code at the failing input. The slow-retry enqueue
goes to the secondary queue `backup-object-slow` (the primary name with the
fixed `-slow` suffix), with the exponential-backoff flag set and the policy's
`retryLimit`/`retryDelay` overriding the defaults — but the default initial
delay passed as `startAfter` is `60 * 60 * 30 = 108000` seconds, i.e. 30
hours, not the 30 minutes (`30 * 60 = 1800` seconds) stated by the claim, the
specification and the source's own comment. -/
theorem C4_slow_retry_default_delay :
    sendSlowRetryQueue cfgQueueOnSingle okQueueSend backupType samplePayload =
      { result := .jobId "job-1"
        enqueueAttempts :=
          [{ name := "backup-object" ++ "-slow"
             data := envelopeData cfgQueueOnSingle.region backupType samplePayload
             options := some { retryBackoff := some true, startAfter := some 108000
                               retryLimit := some 3, retryDelay := some 5 } }] } ∧
    (60 * 60 * 30 : Nat) = 108000 ∧
    (108000 : Nat) ≠ 30 * 60 :=
  ⟨rfl, rfl, by decide⟩

/-- Encryption fixture (identity) with the configured service role. -/
def sampleCredEnv : CredentialEnv :=
  { encrypt := fun s => s, dbServiceRole := "service_role" }

/-- A stored credential row of tenant `t1`. -/
def sampleCredRow : CredRow :=
  { id := "c1", tenant_id := "t1", description := "d", access_key := "ak1"
    secret_key := "enc-sk1", claims := Claims.empty }

/-- A cached decrypted credential. -/
def sampleCred : S3Credentials :=
  { accessKey := "ak1", secretKey := "sk1", claims := Claims.empty }

/-- A credential store where tenant `t1` already holds 50 credentials. -/
def fullStore : List CredRow := List.replicate 50 sampleCredRow

/-- A credential store where tenant `t1` already holds 49 credentials. -/
def almostFullStore : List CredRow := List.replicate 49 sampleCredRow

/-- C5: deleting an S3 credential removes exactly the matching store rows,
removes the `tenantId:accessKey` entry from the deleting instance's credential
cache, and publishes that key on the credentials update channel; the
subscription handler registered by `listenForTenantUpdate` drops the entry
from any other instance's cache on receipt. -/
theorem C5_delete_credential_invalidates (store : List CredRow)
    (localCache remoteCache : S3Cache) (t cid ak : String) :
    (∀ r ∈ (deleteS3CredentialOperation store localCache t cid ak).store,
      ¬ (r.tenant_id = t ∧ r.id = cid)) ∧
    (∀ r ∈ store, ¬ (r.tenant_id = t ∧ r.id = cid) →
      r ∈ (deleteS3CredentialOperation store localCache t cid ak).store) ∧
    (∀ e ∈ (deleteS3CredentialOperation store localCache t cid ak).localCache,
      ¬ e.1 = t ++ ":" ++ ak) ∧
    ((deleteS3CredentialOperation store localCache t cid ak).published =
      [(TENANTS_S3_CREDENTIALS_UPDATE_CHANNEL, t ++ ":" ++ ak)]) ∧
    (∀ e ∈ onS3CredentialsUpdateMessage remoteCache (t ++ ":" ++ ak),
      ¬ e.1 = t ++ ":" ++ ak) := by
  refine ⟨?_, ?_, ?_, rfl, ?_⟩
  · intro r hr
    simp [deleteS3CredentialOperation, deleteS3Credential, List.mem_filter] at hr
    exact not_and_or.mpr hr.2
  · intro r hr hnm
    simp [deleteS3CredentialOperation, deleteS3Credential, List.mem_filter]
    exact ⟨hr, not_and_or.mp hnm⟩
  · intro e he
    simp [deleteS3CredentialOperation, s3CacheDelete, List.mem_filter] at he
    exact he.2
  · intro e he
    simp [onS3CredentialsUpdateMessage, s3CacheDelete, List.mem_filter] at he
    exact he.2

/-- C5 witness: concrete deletion of credential `c1` of tenant `t1`. -/
theorem C5_witness :
    (∀ r ∈ (deleteS3CredentialOperation [sampleCredRow] [("t1:ak1", sampleCred)]
        "t1" "c1" "ak1").store, ¬ (r.tenant_id = "t1" ∧ r.id = "c1")) ∧
    (∀ r ∈ [sampleCredRow], ¬ (r.tenant_id = "t1" ∧ r.id = "c1") →
      r ∈ (deleteS3CredentialOperation [sampleCredRow] [("t1:ak1", sampleCred)]
        "t1" "c1" "ak1").store) ∧
    (∀ e ∈ (deleteS3CredentialOperation [sampleCredRow] [("t1:ak1", sampleCred)]
        "t1" "c1" "ak1").localCache, ¬ e.1 = "t1" ++ ":" ++ "ak1") ∧
    ((deleteS3CredentialOperation [sampleCredRow] [("t1:ak1", sampleCred)]
        "t1" "c1" "ak1").published =
      [(TENANTS_S3_CREDENTIALS_UPDATE_CHANNEL, "t1" ++ ":" ++ "ak1")]) ∧
    (∀ e ∈ onS3CredentialsUpdateMessage [("t1:ak1", sampleCred)] ("t1" ++ ":" ++ "ak1"),
      ¬ e.1 = "t1" ++ ":" ++ "ak1") :=
  C5_delete_credential_invalidates [sampleCredRow] [("t1:ak1", sampleCred)]
    [("t1:ak1", sampleCred)] "t1" "c1" "ak1"

/-- C6: below the credential limit, the persisted row's claims carry no
caller-supplied `iss`, `exp` or `iat` (those keys are absent) and its issuer is
always the server-assigned string `supabase.storage.<tenantId>`, whatever the
caller supplied. -/
theorem C6_persisted_claims_server_assigned (env : CredentialEnv) (store : List CredRow)
    (t d : String) (dataClaims : Option Claims) (rid akid ak : String)
    (h : countS3Credentials store t < 50) :
    ∃ row, (createS3Credentials env store t d dataClaims rid akid ak).store = store ++ [row] ∧
      row.claims.iss = none ∧ row.claims.exp = none ∧ row.claims.iat = none ∧
      row.claims.issuer = some ("supabase.storage." ++ t) := by
  have hn : ¬ 50 ≤ countS3Credentials store t := by omega
  cases dataClaims with
  | none =>
    simp only [createS3Credentials]
    rw [if_neg hn]
    exact ⟨_, rfl, rfl, rfl, rfl, rfl⟩
  | some c =>
    simp only [createS3Credentials]
    rw [if_neg hn]
    exact ⟨_, rfl, rfl, rfl, rfl, rfl⟩

/-- C6 witness: a caller supplying its own `iss`, `issuer`, `exp` and `iat`
sees all of them dropped and the issuer replaced by `supabase.storage.t1`. -/
theorem C6_witness :
    countS3Credentials [] "t1" < 50 ∧
    ∃ row, (createS3Credentials sampleCredEnv [] "t1" "d"
        (some { role := some "r", sub := some "s", iss := some "evil"
                issuer := some "evil", exp := some 1, iat := some 2
                extra := [("k", "v")] }) "c9" "akid" "sk").store = [] ++ [row] ∧
      row.claims.iss = none ∧ row.claims.exp = none ∧ row.claims.iat = none ∧
      row.claims.issuer = some ("supabase.storage." ++ "t1") :=
  ⟨by decide,
    C6_persisted_claims_server_assigned sampleCredEnv [] "t1" "d"
      (some { role := some "r", sub := some "s", iss := some "evil"
              issuer := some "evil", exp := some 1, iat := some 2
              extra := [("k", "v")] }) "c9" "akid" "sk" (by decide)⟩

/-- C7: `createS3Credentials` fails with `MaximumCredentialsLimit` and leaves
the store untouched exactly when the tenant already holds at least 50
credentials; below the limit it succeeds and the tenant's credential count
grows by one. -/
theorem C7_maximum_credentials_limit (env : CredentialEnv) (store : List CredRow)
    (t d : String) (dataClaims : Option Claims) (rid akid ak : String) :
    (50 ≤ countS3Credentials store t →
      (createS3Credentials env store t d dataClaims rid akid ak).result =
        .error .MaximumCredentialsLimit ∧
      (createS3Credentials env store t d dataClaims rid akid ak).store = store) ∧
    (countS3Credentials store t < 50 →
      (∃ s, (createS3Credentials env store t d dataClaims rid akid ak).result = .ok s) ∧
      countS3Credentials (createS3Credentials env store t d dataClaims rid akid ak).store t =
        countS3Credentials store t + 1) := by
  constructor
  · intro h
    simp only [createS3Credentials]
    rw [if_pos h]
    exact ⟨rfl, rfl⟩
  · intro h
    have hn : ¬ 50 ≤ countS3Credentials store t := by omega
    simp only [createS3Credentials]
    rw [if_neg hn]
    refine ⟨⟨_, rfl⟩, ?_⟩
    simp [countS3Credentials, List.filter_append]

/-- C7 witness: with 50 existing credentials the 51st creation fails and
persists nothing; with 49 existing credentials the 50th creation succeeds. -/
theorem C7_witness :
    ((createS3Credentials sampleCredEnv fullStore "t1" "d" none "c9" "akid" "sk").result =
        .error .MaximumCredentialsLimit ∧
      (createS3Credentials sampleCredEnv fullStore "t1" "d" none "c9" "akid" "sk").store =
        fullStore) ∧
    ((∃ s, (createS3Credentials sampleCredEnv almostFullStore "t1" "d" none "c9" "akid"
        "sk").result = .ok s) ∧
      countS3Credentials (createS3Credentials sampleCredEnv almostFullStore "t1" "d" none
        "c9" "akid" "sk").store "t1" = countS3Credentials almostFullStore "t1" + 1) :=
  ⟨(C7_maximum_credentials_limit sampleCredEnv fullStore "t1" "d" none "c9" "akid" "sk").1
      (by decide),
   (C7_maximum_credentials_limit sampleCredEnv almostFullStore "t1" "d" none "c9" "akid"
      "sk").2 (by decide)⟩

/-- C10: below the credential limit, the persisted role claim is the
caller-supplied role when one was given (also when other claims were given
without a role, or no claims at all) and otherwise the configured database
service role. -/
theorem C10_role_defaults_to_service_role (env : CredentialEnv) (store : List CredRow)
    (t d : String) (dataClaims : Option Claims) (rid akid ak : String)
    (h : countS3Credentials store t < 50) :
    ∃ row, (createS3Credentials env store t d dataClaims rid akid ak).store = store ++ [row] ∧
      (dataClaims.bind (fun c => c.role) = none →
        row.claims.role = some env.dbServiceRole) ∧
      (∀ r, dataClaims.bind (fun c => c.role) = some r → row.claims.role = some r) := by
  have hn : ¬ 50 ≤ countS3Credentials store t := by omega
  cases dataClaims with
  | none =>
    simp only [createS3Credentials]
    rw [if_neg hn]
    exact ⟨_, rfl, fun _ => rfl, fun r hr => by simp at hr⟩
  | some c =>
    simp only [createS3Credentials]
    rw [if_neg hn]
    refine ⟨_, rfl, ?_, ?_⟩
    · intro hr
      simp [Option.bind] at hr
      simp [stripRestrictedClaims, hr]
    · intro r hr
      simp [Option.bind] at hr
      simp [stripRestrictedClaims, hr]

/-- C10 witness: with no claims object the persisted role is the configured
service role; the hypotheses discharged by evaluation. -/
theorem C10_witness :
    countS3Credentials [] "t1" < 50 ∧
    ∃ row, (createS3Credentials sampleCredEnv [] "t1" "d" none "c9" "akid" "sk").store =
        [] ++ [row] ∧
      ((none : Option Claims).bind (fun c => c.role) = none →
        row.claims.role = some sampleCredEnv.dbServiceRole) ∧
      (∀ r, (none : Option Claims).bind (fun c => c.role) = some r →
        row.claims.role = some r) :=
  ⟨by decide,
    C10_role_defaults_to_service_role sampleCredEnv [] "t1" "d" none "c9" "akid" "sk"
      (by decide)⟩

/-- C8 counterexample: the claim fails as stated for the `InvalidTenantId`
case. A call with the empty tenant identifier fails without touching the
cache, but a subsequent call for the same identifier does not perform a fresh
store query: it is rejected again before any store access, so its store-query
count is zero. -/
theorem C8_counterexample :
    (getTenantConfig sampleEnv emptyStore [] "").result = .error .InvalidTenantId ∧
    (getTenantConfig sampleEnv emptyStore [] "").cache = [] ∧
    ¬ 1 ≤ (getTenantConfig sampleEnv emptyStore
      ((getTenantConfig sampleEnv emptyStore [] "").cache) "").storeQueries :=
  ⟨rfl, rfl, by decide⟩

/-- C8 (amended): `getTenantConfig` fails with `InvalidTenantId` on an empty
identifier and with `MissingTenantConfig` when the store has no row; in either
failure case nothing is inserted into the tenant config cache. After a
`MissingTenantConfig` failure a subsequent call for the same tenant performs a
fresh store query, while after `InvalidTenantId` a subsequent call fails again
before any store access. -/
theorem C8_failure_modes_not_cached (env : TenantEnv) (store : String → Option TenantRow)
    (cache : TenantCache) (t : String) :
    (t = "" →
      getTenantConfig env store cache t =
        { result := .error .InvalidTenantId, cache := cache, storeQueries := 0 } ∧
      (getTenantConfig env store (getTenantConfig env store cache t).cache t).storeQueries =
        0) ∧
    (¬ t = "" → cacheGet cache t = none → store t = none →
      getTenantConfig env store cache t =
        { result := .error (.MissingTenantConfig t), cache := cache, storeQueries := 1 } ∧
      (getTenantConfig env store (getTenantConfig env store cache t).cache t).storeQueries =
        1) := by
  constructor
  · intro h
    have h1 : getTenantConfig env store cache t =
        { result := .error .InvalidTenantId, cache := cache, storeQueries := 0 } := by
      unfold getTenantConfig
      rw [if_pos h]
    refine ⟨h1, ?_⟩
    rw [h1]
    unfold getTenantConfig
    rw [if_pos h]
  · intro hne hc hs
    have h1 : getTenantConfig env store cache t =
        { result := .error (.MissingTenantConfig t), cache := cache, storeQueries := 1 } := by
      unfold getTenantConfig getTenantConfigLocked
      rw [if_neg hne, hc, hs]
    refine ⟨h1, ?_⟩
    rw [h1]
    unfold getTenantConfig getTenantConfigLocked
    rw [if_neg hne, hc, hs]

/-- C8 witness: concrete instances of both failure modes, the hypotheses
discharged by evaluation. -/
theorem C8_witness :
    ((getTenantConfig sampleEnv sampleStore [] "" =
        { result := .error .InvalidTenantId, cache := [], storeQueries := 0 } ∧
      (getTenantConfig sampleEnv sampleStore
        (getTenantConfig sampleEnv sampleStore [] "").cache "").storeQueries = 0)) ∧
    ((getTenantConfig sampleEnv sampleStore [] "t2" =
        { result := .error (.MissingTenantConfig "t2"), cache := [], storeQueries := 1 } ∧
      (getTenantConfig sampleEnv sampleStore
        (getTenantConfig sampleEnv sampleStore [] "t2").cache "t2").storeQueries = 1)) :=
  ⟨(C8_failure_modes_not_cached sampleEnv sampleStore [] "").1 rfl,
   (C8_failure_modes_not_cached sampleEnv sampleStore [] "t2").2 (by decide) rfl rfl⟩

/-- Once the cache holds tenant `t`, every caller serialized behind the keyed
mutex is served from the re-check inside the lock without a store query. -/
theorem raceFirstAccess_cache_hit (env : TenantEnv) (store : String → Option TenantRow)
    (t : String) (cfg : TenantConfig) (cache : TenantCache)
    (h : cacheGet cache t = some cfg) :
    ∀ n, raceFirstAccess env store t n cache = (List.replicate n (.ok cfg), cache, 0) := by
  intro n
  induction n with
  | zero => rfl
  | succ n ih =>
    have hl : getTenantConfigLocked env store cache t =
        { result := .ok cfg, cache := cache, storeQueries := 0 } := by
      unfold getTenantConfigLocked
      rw [h]
    simp [raceFirstAccess, hl, ih, List.replicate]

/-- C9 counterexample: the claim fails as stated when the populating fetch
fails. Two callers racing on first access of a tenant absent from the store
serialize on the keyed mutex, but nothing is cached after the first caller's
`MissingTenantConfig` failure, so the second caller issues its own store
query: two store queries, not at most one. -/
theorem C9_counterexample :
    ¬ (raceFirstAccess sampleEnv emptyStore "t1" 2 []).2.2 ≤ 1 := by decide

/-- C9 (amended): for every tenant `t` and number `n` of concurrent callers
racing on first access, when the populating fetch succeeds (the store has a
row and the service key verifies), the serialized critical sections issue at
most one store query in total, and every caller — the populating one and all
callers queued behind it, served by the re-check inside the lock — receives
the freshly built config. -/
theorem C9_single_flight_on_successful_fetch (env : TenantEnv)
    (store : String → Option TenantRow) (t : String) (row : TenantRow)
    (srole : String) (n : Nat)
    (hrow : store t = some row)
    (hjwt : env.verifyJWT (env.decrypt row.service_key) (env.decrypt row.jwt_secret) =
      .ok srole) :
    (raceFirstAccess env store t n []).2.2 ≤ 1 ∧
    ∀ r ∈ (raceFirstAccess env store t n []).1, r = .ok (buildTenantConfig env row srole) := by
  cases n with
  | zero => exact ⟨by simp [raceFirstAccess], by simp [raceFirstAccess]⟩
  | succ n =>
    have hempty : cacheGet ([] : TenantCache) t = none := rfl
    have hl : getTenantConfigLocked env store [] t =
        { result := .ok (buildTenantConfig env row srole)
          cache := cacheSet [] t (buildTenantConfig env row srole)
          storeQueries := 1 } := by
      simp [getTenantConfigLocked, hempty, hrow, hjwt]
    have hrest := raceFirstAccess_cache_hit env store t (buildTenantConfig env row srole)
      (cacheSet [] t (buildTenantConfig env row srole)) (cacheGet_cacheSet [] t _) n
    constructor
    · simp [raceFirstAccess, hl, hrest]
    · intro r hr
      simp [raceFirstAccess, hl, hrest] at hr
      rcases hr with h | h
      · exact h
      · exact h.2

/-- C9 witness: three callers racing on tenant `t1` issue one store query in
total and all receive the same populated config; hypotheses discharged by
evaluation. -/
theorem C9_witness :
    (raceFirstAccess sampleEnv sampleStore "t1" 3 []).2.2 ≤ 1 ∧
    ∀ r ∈ (raceFirstAccess sampleEnv sampleStore "t1" 3 []).1,
      r = .ok (buildTenantConfig sampleEnv sampleRow "service_role") :=
  C9_single_flight_on_successful_fetch sampleEnv sampleStore "t1" sampleRow
    "service_role" 3 rfl rfl

end StorageCore
